import Mathlib

/-!
Verification of the `dc_bundle` crate root (src/crates/dc_bundle/src/lib.rs).

The visible source defines a two-variant error enum with `thiserror`-derived
display messages and a `Result<T>` alias over it.  We embed the error type,
its display formatting (the `#[error("...")]` format strings), and the
result alias, and prove the specified properties.
-/

namespace DcBundle

/-- The crate's error type (`pub enum Error`), with its two variants
`MissingFieldError { field: String }` and
`UnknownEnumVariant { enum_name: String }`. -/
inductive Error : Type where
  | MissingFieldError (field : String) : Error
  | UnknownEnumVariant (enum_name : String) : Error
deriving DecidableEq, Repr

/-- The `Display` implementation derived by `thiserror` from the
`#[error("Missing field {field}")]` and
`#[error("Unknown enum variant for {enum_name}")]` attributes. -/
def Error.display : Error → String
  | .MissingFieldError field => "Missing field " ++ field
  | .UnknownEnumVariant enum_name => "Unknown enum variant for " ++ enum_name

/-- The single string payload carried by an error value: the `field` of a
`MissingFieldError`, the `enum_name` of an `UnknownEnumVariant`. -/
def Error.payload : Error → String
  | .MissingFieldError field => field
  | .UnknownEnumVariant enum_name => enum_name

/-- The variant tag of an error value: `true` for `MissingFieldError`,
`false` for `UnknownEnumVariant`. -/
def Error.isMissingField : Error → Bool
  | .MissingFieldError _ => true
  | .UnknownEnumVariant _ => false

/-- The crate's alias `pub type Result<T> = std::result::Result<T, Error>;`,
embedded as `Except Error T`. -/
abbrev Result (T : Type) : Type := Except Error T

end DcBundle

open DcBundle

/-- C1: for every field name string `f`, the display message of
`MissingFieldError { field := f }` contains `f` as a substring. -/
theorem missingField_display_contains_field (f : String) :
    ∃ a b : String, (Error.MissingFieldError f).display = a ++ f ++ b :=
  ⟨"Missing field ", "", by simp [Error.display]⟩

/-- C2: for every enum name string `e`, the display message of
`UnknownEnumVariant { enum_name := e }` contains `e` as a substring. -/
theorem unknownEnumVariant_display_contains_name (e : String) :
    ∃ a b : String, (Error.UnknownEnumVariant e).display = a ++ e ++ b :=
  ⟨"Unknown enum variant for ", "", by simp [Error.display]⟩

/-- C3: propagating an `Err` through the crate's `Result<T>` by monadic bind
(the `?` short-circuit) yields the same `Err` unchanged, so the payload the
error was constructed with is preserved through propagation. -/
theorem result_bind_error_short_circuits {T U : Type}
    (err : Error) (f : T → Result U) :
    (Except.error err : Result T) >>= f = Except.error err ∧
      ∃ e : Error, (Except.error err : Result T) >>= f = Except.error e ∧
        e.payload = err.payload :=
  ⟨rfl, err, rfl, rfl⟩

/-- C4: every value of the crate's error type is either a
`MissingFieldError` or an `UnknownEnumVariant`, and both cases are
constructible. -/
theorem error_has_exactly_two_variants :
    (∀ e : Error, (∃ f, e = Error.MissingFieldError f) ∨
      (∃ n, e = Error.UnknownEnumVariant n)) ∧
    (∃ e : Error, e.isMissingField = true) ∧
    (∃ e : Error, e.isMissingField = false) := by
  refine ⟨fun e => ?_, ⟨Error.MissingFieldError "", rfl⟩,
    ⟨Error.UnknownEnumVariant "", rfl⟩⟩
  cases e with
  | MissingFieldError f => exact Or.inl ⟨f, rfl⟩
  | UnknownEnumVariant n => exact Or.inr ⟨n, rfl⟩

/-- C5: construction followed by payload extraction is the identity: for
every string `s`, the payload of `MissingFieldError { field := s }` is `s`,
and the payload of `UnknownEnumVariant { enum_name := s }` is `s`. -/
theorem payload_of_construction (s : String) :
    (Error.MissingFieldError s).payload = s ∧
      (Error.UnknownEnumVariant s).payload = s :=
  ⟨rfl, rfl⟩

/-- C6: each variant carries exactly one string payload: an error value is
determined by its variant tag together with its single payload, and each
constructor is injective in that payload. -/
theorem error_determined_by_tag_and_payload (a b : Error)
    (htag : a.isMissingField = b.isMissingField)
    (hpay : a.payload = b.payload) : a = b := by
  cases a <;> cases b <;> simp [Error.isMissingField] at htag <;>
    simpa [Error.payload] using hpay

/-- Witness for C6 at a concrete input. -/
theorem error_determined_by_tag_and_payload_witness :
    Error.MissingFieldError "x" = Error.MissingFieldError "x" :=
  error_determined_by_tag_and_payload _ _ rfl rfl

/-- C7: for every type `T`, the crate's `Result<T>` is definitionally the
standard two-case result type whose error case holds the crate's error
type. -/
theorem result_is_except_error (T : Type) : Result T = Except Error T := rfl

/-- C8: the display messages are exact: `MissingFieldError { field := f }`
formats to `"Missing field " ++ f` and `UnknownEnumVariant
{ enum_name := e }` formats to `"Unknown enum variant for " ++ e`. -/
theorem display_messages_exact (f e : String) :
    (Error.MissingFieldError f).display = "Missing field " ++ f ∧
      (Error.UnknownEnumVariant e).display = "Unknown enum variant for " ++ e :=
  ⟨rfl, rfl⟩

/-- C9: display formatting is injective: equal messages imply equal error
values, so the variant and its payload are recoverable from the message. -/
theorem display_injective (a b : Error) (h : a.display = b.display) :
    a = b := by
  cases a with
  | MissingFieldError f =>
    cases b with
    | MissingFieldError g =>
      have hd := congrArg String.data h
      rw [show (Error.MissingFieldError f).display = "Missing field " ++ f
            from rfl,
          show (Error.MissingFieldError g).display = "Missing field " ++ g
            from rfl,
          String.data_append, String.data_append] at hd
      exact congrArg Error.MissingFieldError
        (String.ext (List.append_cancel_left hd))
    | UnknownEnumVariant g =>
      exfalso
      have hd := congrArg String.data h
      rw [show (Error.MissingFieldError f).display = "Missing field " ++ f
            from rfl,
          show (Error.UnknownEnumVariant g).display =
            "Unknown enum variant for " ++ g from rfl,
          String.data_append, String.data_append] at hd
      have hd' : 'M' :: ("issing field ".data ++ f.data) =
          'U' :: ("nknown enum variant for ".data ++ g.data) := hd
      have hMU : ('M' : Char) = 'U' := (List.cons.injEq _ _ _ _ ▸ hd').1
      exact absurd hMU (by decide)
  | UnknownEnumVariant f =>
    cases b with
    | MissingFieldError g =>
      exfalso
      have hd := congrArg String.data h
      rw [show (Error.UnknownEnumVariant f).display =
            "Unknown enum variant for " ++ f from rfl,
          show (Error.MissingFieldError g).display = "Missing field " ++ g
            from rfl,
          String.data_append, String.data_append] at hd
      have hd' : 'U' :: ("nknown enum variant for ".data ++ f.data) =
          'M' :: ("issing field ".data ++ g.data) := hd
      have hUM : ('U' : Char) = 'M' := (List.cons.injEq _ _ _ _ ▸ hd').1
      exact absurd hUM (by decide)
    | UnknownEnumVariant g =>
      have hd := congrArg String.data h
      rw [show (Error.UnknownEnumVariant f).display =
            "Unknown enum variant for " ++ f from rfl,
          show (Error.UnknownEnumVariant g).display =
            "Unknown enum variant for " ++ g from rfl,
          String.data_append, String.data_append] at hd
      exact congrArg Error.UnknownEnumVariant
        (String.ext (List.append_cancel_left hd))

/-- Witness for C9 at a concrete input. -/
theorem display_injective_witness :
    Error.UnknownEnumVariant "Shape" = Error.UnknownEnumVariant "Shape" :=
  display_injective _ _ rfl
